import Mathlib

/-!
Verification development for the AI Sales & Forecast Dashboard
(`src/app.py`).

The Report Engine is a flat pipeline over a tabular dataset:
schema resolution (numeric coercion of the value column), stage
classification (distinct stage strings and a default commit guess), KPI
calculation (forecast, gap, coverage), the derived views, and the
rule-based insight list.  We embed it shallowly: a `DataFrame` is a column
list plus an ordered list of rows (association lists from column names to
scalar cells), numbers are rationals, `pd.to_numeric(errors="coerce")`
becomes a total coercion into an `Option`-like `Cell`, and the
Streamlit short-circuits (`st.stop()`) become `Except`.
-/

namespace Dashboard

/-- A scalar cell of the dataset: a string, a number, or missing/NaN.
Mirrors the scalar values a parsed CSV / generated sample can hold. -/
inductive Cell where
  | str (s : String)
  | num (q : ℚ)
  | missing
deriving DecidableEq, Repr

/-- A row: an association list from column name to cell (pandas row). -/
abbrev Row := List (String × Cell)

/-- Look up a column in a row; an absent column reads as missing
(pandas would raise, but every access in the script uses a column chosen
from `df.columns`, so the absent case never fires on well-formed input). -/
def Row.get : Row → String → Cell
  | [], _ => Cell.missing
  | p :: r, c => if p.1 == c then p.2 else Row.get r c

/-- The dataset: the ordered column-name list and the ordered rows. -/
structure DataFrame where
  columns : List String
  rows : List Row
deriving DecidableEq, Repr

/-- The cells of one column, in row order (`df[c]`). -/
def DataFrame.colCells (df : DataFrame) (c : String) : List Cell :=
  df.rows.map (fun r => r.get c)

/-- Parse a list of decimal digit characters; fails on a non-digit and on
the empty list (mirrors `float("")` failing). -/
def digitsToNat : List Char → Option Nat
  | [] => none
  | l => l.foldl
      (fun acc c =>
        acc.bind fun n => if c.isDigit then some (10 * n + (c.toNat - 48)) else none)
      (some 0)

/-- Numeric parse of a string: optional leading minus sign, digits, and an
optional fractional part.  Stands for the number parsing done by
`pd.to_numeric`; strings outside this shape fail to parse. -/
def parseNum (s : String) : Option ℚ :=
  let sgn : ℚ := if s.startsWith "-" then -1 else 1
  let body := if s.startsWith "-" then s.drop 1 else s
  match body.splitOn "." with
  | [ip] => (digitsToNat ip.data).map (fun n => sgn * n)
  | [ip, fp] =>
      match digitsToNat ip.data, digitsToNat fp.data with
      | some i, some f => some (sgn * ((i : ℚ) + (f : ℚ) / (10 : ℚ) ^ fp.length))
      | _, _ => none
  | _ => none

/-- `pd.to_numeric(cell, errors="coerce")`: numbers pass through, strings
are parsed (failures become missing), missing stays missing. -/
def Cell.coerce : Cell → Cell
  | .num q => .num q
  | .str s =>
      match parseNum s with
      | some q => .num q
      | none => .missing
  | .missing => .missing

/-- The numeric content of a cell, if any. -/
def Cell.toNum? : Cell → Option ℚ
  | .num q => some q
  | _ => none

/-- `astype(str)` on one cell: strings stay themselves, numbers render via
`toString`, missing renders as the string pandas prints for NaN. -/
def Cell.toStr : Cell → String
  | .str s => s
  | .num q => toString q
  | .missing => "nan"

/-- `cell >= q` in a pandas numeric comparison: true exactly when the cell
holds a number that is ≥ `q`; missing (NaN) compares false. -/
def Cell.geQ : Cell → ℚ → Bool
  | .num x, q => q ≤ x
  | _, _ => false

/-- One row entry under the line-94 assignment: the cells named `c` are
coerced, every other entry is untouched. -/
def coerceEntry (c : String) (p : String × Cell) : String × Cell :=
  if p.1 == c then (p.1, p.2.coerce) else p

/-- `df[c] = df[c].map Cell.coerce` — the line-94 assignment
`df[value_col] = pd.to_numeric(df[value_col], errors="coerce")`, which
rewrites exactly the cells named `c` in every row. -/
def DataFrame.coerceCol (df : DataFrame) (c : String) : DataFrame :=
  { columns := df.columns
    rows := df.rows.map (fun r => r.map (coerceEntry c)) }

/-- `"sub" in s` — Python substring containment, character-list version:
does the needle occur as a leading run here? -/
def leadMatch : List Char → List Char → Bool
  | [], _ => true
  | _ :: _, [] => false
  | a :: as, b :: bs => a == b && leadMatch as bs

/-- Does the needle occur as a contiguous run anywhere in the haystack? -/
def subMatch (needle : List Char) : List Char → Bool
  | [] => leadMatch needle []
  | b :: bs => leadMatch needle (b :: bs) || subMatch needle bs

/-- Python `sub in s` on strings. -/
def strHasSub (s sub : String) : Bool := subMatch sub.data s.data

/-- Python `s.lower()`, character by character (ASCII case folding, which
covers every stage label the repository deals in). -/
def lowerStr (s : String) : String := String.mk (s.data.map Char.toLower)

/-- The guessing predicate of lines 104-107:
`"commit" in s.lower() or "won" in s.lower()`. -/
def isCommitLike (s : String) : Bool :=
  strHasSub (lowerStr s) "commit" || strHasSub (lowerStr s) "won"

/-- Lexicographic comparison of character lists by code point — the order
Python's `sorted` uses on strings. -/
def charsLe : List Char → List Char → Bool
  | [], _ => true
  | _ :: _, [] => false
  | a :: as, b :: bs =>
      if a.toNat < b.toNat then true
      else if b.toNat < a.toNat then false
      else charsLe as bs

/-- Lexicographic string comparison by code point. -/
def strLe (a b : String) : Bool := charsLe a.data b.data

theorem charsLe_cons {a b : Char} {as bs : List Char} :
    charsLe (a :: as) (b :: bs) = true ↔
      a.toNat < b.toNat ∨ (a.toNat = b.toNat ∧ charsLe as bs = true) := by
  simp only [charsLe]
  by_cases h1 : a.toNat < b.toNat
  · simp [h1]
  · by_cases h2 : b.toNat < a.toNat
    · simp only [if_neg h1, if_pos h2]
      constructor
      · intro h; cases h
      · rintro (h | ⟨h, -⟩) <;> omega
    · simp [h1, h2, show a.toNat = b.toNat from by omega]

theorem charsLe_total : ∀ as bs : List Char,
    charsLe as bs = true ∨ charsLe bs as = true
  | [], _ => Or.inl rfl
  | _ :: _, [] => Or.inr rfl
  | a :: as, b :: bs => by
      rcases Nat.lt_trichotomy a.toNat b.toNat with h | h | h
      · exact Or.inl (charsLe_cons.mpr (Or.inl h))
      · rcases charsLe_total as bs with hc | hc
        · exact Or.inl (charsLe_cons.mpr (Or.inr ⟨h, hc⟩))
        · exact Or.inr (charsLe_cons.mpr (Or.inr ⟨h.symm, hc⟩))
      · exact Or.inr (charsLe_cons.mpr (Or.inl h))

theorem charsLe_trans : ∀ as bs cs : List Char, charsLe as bs = true →
    charsLe bs cs = true → charsLe as cs = true
  | [], _, _, _, _ => rfl
  | _ :: _, [], _, h1, _ => by cases h1
  | _ :: _, _ :: _, [], _, h2 => by cases h2
  | a :: as, b :: bs, c :: cs, h1, h2 => by
      rcases charsLe_cons.mp h1 with hab | ⟨hab, h1s⟩ <;>
        rcases charsLe_cons.mp h2 with hbc | ⟨hbc, h2s⟩
      · exact charsLe_cons.mpr (Or.inl (by omega))
      · exact charsLe_cons.mpr (Or.inl (by omega))
      · exact charsLe_cons.mpr (Or.inl (by omega))
      · exact charsLe_cons.mpr
          (Or.inr ⟨by omega, charsLe_trans as bs cs h1s h2s⟩)

theorem charsLe_refl : ∀ as : List Char, charsLe as as = true
  | [] => rfl
  | a :: as => by simp [charsLe, charsLe_refl as]

instance : IsTotal String (fun a b => strLe a b = true) :=
  ⟨fun a b => charsLe_total a.data b.data⟩

instance : IsTrans String (fun a b => strLe a b = true) :=
  ⟨fun a b c => charsLe_trans a.data b.data c.data⟩

/-- Line 101: `sorted(df[stage_col].astype(str).unique())` — every cell of
the stage column as a string, deduplicated, sorted lexicographically
ascending by code point. -/
def stageValuesOf (df : DataFrame) (stageCol : String) : List String :=
  ((df.colCells stageCol).map Cell.toStr).dedup.insertionSort
    (fun a b => strLe a b = true)

/-- Lines 104-109: the default commit-stage guess — the stage values that
look commit/won-like, and, when none do but stage values exist, the first
(lexicographically smallest) stage value alone. -/
def defaultCommitStagesOf (sv : List String) : List String :=
  let d := sv.filter isCommitLike
  if d.isEmpty then
    match sv with
    | [] => []
    | x :: _ => [x]
  else d

/-- The user-supplied configuration of one render pass: the three column
role bindings, the commit-stage set, the target, the large-deal threshold
and the risk-view cutoff. -/
structure Config where
  stageCol : String
  valueCol : String
  closeCol : Option String
  commitStages : List String
  target : ℚ
  largeDealThreshold : ℚ
  cutoff : ℚ
deriving DecidableEq, Repr

/-- Lines 132-136: the forecast.  With a non-empty commit set, sum the
value column over the rows whose string-form stage is a commit stage
(pandas `.sum()` skips NaN, so missing cells add 0); with an empty commit
set, exactly `0.0`. -/
def forecastOf (df : DataFrame) (cfg : Config) : ℚ :=
  if cfg.commitStages.isEmpty then 0
  else
    ((df.rows.filter
        (fun r => cfg.commitStages.contains (r.get cfg.stageCol).toStr)).map
      (fun r => ((r.get cfg.valueCol).toNum?).getD 0)).sum

/-- Line 138: `gap = target - forecast`. -/
def gapOf (target forecast : ℚ) : ℚ := target - forecast

/-- Line 139: `coverage = (forecast / target) * 100 if target > 0 else 0`. -/
def coverageOf (target forecast : ℚ) : ℚ :=
  if target > 0 then forecast / target * 100 else 0

/-- The KPI snapshot shown in the four metric widgets. -/
structure KPI where
  target : ℚ
  forecast : ℚ
  gap : ℚ
  coverage : ℚ
deriving DecidableEq, Repr

/-- Lines 132-139 packaged: the KPI snapshot of one run. -/
def kpiOf (df : DataFrame) (cfg : Config) : KPI :=
  let f := forecastOf df cfg
  { target := cfg.target
    forecast := f
    gap := gapOf cfg.target f
    coverage := coverageOf cfg.target f }

/-- Python `int(...)` on a rational: truncation toward zero. -/
def intTrunc (q : ℚ) : ℤ := q.num.tdiv q.den

/-- The numeric cells of a column, in row order (NaN / strings dropped,
as pandas `min`/`max` skip NaN on a numeric column). -/
def colNums (df : DataFrame) (c : String) : List ℚ :=
  (df.colCells c).filterMap Cell.toNum?

/-- `df[c].max()` over the numeric cells: `none` models the NaN that an
empty or all-missing numeric column yields. -/
def colMax? (df : DataFrame) (c : String) : Option ℚ :=
  match colNums df c with
  | [] => none
  | x :: xs => some (xs.foldl max x)

/-- `df[c].min()` over the numeric cells. -/
def colMin? (df : DataFrame) (c : String) : Option ℚ :=
  match colNums df c with
  | [] => none
  | x :: xs => some (xs.foldl min x)

/-- Line 190: the slider default `int(df[close_week_col].max()) - 2`
(0 stands in for the NaN of an all-missing column, where the real slider
call would not survive `int()`). -/
def defaultCutoff (df : DataFrame) (cw : String) : ℤ :=
  match colMax? df cw with
  | some m => intTrunc m - 2
  | none => 0

/-- Lines 186-191: the slider bounds
`(int(df[cw].min()), int(df[cw].max()))`. -/
def cutoffBounds (df : DataFrame) (cw : String) : ℤ × ℤ :=
  (match colMin? df cw with | some m => intTrunc m | none => 0,
   match colMax? df cw with | some m => intTrunc m | none => 0)

/-- The outcome of the Forecast Risk (Late Deals) view: either the
guidance notice (close-week role unbound, line 183) or the filtered table
with its row count (lines 193-198). -/
inductive RiskView where
  | notice
  | table (rows : List Row) (count : Nat)
deriving DecidableEq, Repr

/-- Line 193: the risky-deal predicate —
`(df[close_week_col] >= late_cutoff) & (~df[stage_col].astype(str).isin(commit_stages))`. -/
def isRisky (cfg : Config) (cw : String) (cutoff : ℚ) (r : Row) : Bool :=
  (r.get cw).geQ cutoff && !(cfg.commitStages.contains (r.get cfg.stageCol).toStr)

/-- Lines 182-199: the Forecast Risk view.  With `close_week` unbound it
degrades to the guidance notice; otherwise it filters the rows by
`isRisky` at the chosen cutoff and reports them with their count. -/
def riskView (df : DataFrame) (cfg : Config) : RiskView :=
  match cfg.closeCol with
  | none => .notice
  | some cw =>
      let risky := df.rows.filter (isRisky cfg cw cfg.cutoff)
      .table risky risky.length

/-- Lines 201-210: the Large Deal Upside view — rows whose value is at
least the threshold, with their count. -/
def largeDealsView (df : DataFrame) (cfg : Config) : List Row × Nat :=
  let big := df.rows.filter (fun r => (r.get cfg.valueCol).geQ cfg.largeDealThreshold)
  (big, big.length)

/-- Lines 223-226, insight rule 1: the gap-remaining message when
`gap > 0`, the target-covered message otherwise.  The numeric gap is
rendered with `toString` (display formatting is presentation-layer). -/
def rule1 (gap : ℚ) : List String :=
  if gap > 0 then
    ["There is a remaining gap of " ++ toString gap ++ " to target."]
  else
    ["Target appears covered based on selected commit stages."]

/-- Lines 228-231, insight rule 2: thin-funnel warning below 80,
exceeds-target warning at or above 100, nothing in between. -/
def rule2 (coverage : ℚ) : List String :=
  if coverage < 80 then
    ["Forecast coverage is below 80 percent. Funnel may be thin."]
  else if coverage ≥ 100 then
    ["Forecast exceeds target. Check deal quality and risk."]
  else []

/-- Does a column hold any string cell?  On such a column the pandas
`max() - 1` of rule 3 raises a `TypeError` (string max, or a mixed-type
comparison inside `max`). -/
def hasStrCell (df : DataFrame) (c : String) : Bool :=
  (df.colCells c).any (fun x => match x with | .str _ => true | _ => false)

/-- The body of rule 3 (lines 235-240), as the fallible computation the
`try` wraps: `df[cw].max() - 1` raises a `TypeError` when the column holds
any string, modelled as `.error`; an all-missing column has
`max() = NaN`, every NaN comparison is false, so no row qualifies and no
line is emitted. -/
def rule3Core (df : DataFrame) (cw : String) : Except Unit (List String) :=
  if hasStrCell df cw then
    .error ()
  else
    match colMax? df cw with
    | none => .ok []
    | some m =>
        let lateCut := m - 1
        let n := (df.rows.filter (fun r => (r.get cw).geQ lateCut)).length
        .ok (if n > 0 then
              [toString n ++ " deals are concentrated in the last weeks of the quarter."]
            else [])

/-- Lines 233-242, insight rule 3 with its `try/except: pass`: unbound
close-week contributes nothing, and any evaluation failure is swallowed
into an empty contribution. -/
def rule3 (df : DataFrame) (closeCol : Option String) : List String :=
  match closeCol with
  | none => []
  | some cw =>
      match rule3Core df cw with
      | .ok l => l
      | .error _ => []

/-- Lines 221-242: the ordered insight list of one run. -/
def insightsOf (df : DataFrame) (cfg : Config) (kpi : KPI) : List String :=
  rule1 kpi.gap ++ rule2 kpi.coverage ++ rule3 df cfg.closeCol

/-- Lines 244-248: what the summary section prints — the fallback line
when the insight list is empty, the list itself otherwise. -/
def summaryLines (insights : List String) : List String :=
  if insights.isEmpty then ["No major observations based on current settings."]
  else insights

/-- Everything one render pass hands to the presentation layer (for the
claims under study): the classifier results, the KPI snapshot, the risk
view and the insight list. -/
structure Outputs where
  stageValues : List String
  defaultCommit : List String
  kpi : KPI
  risk : RiskView
  insightLines : List String
deriving DecidableEq, Repr

/-- Schema resolution, line 94: the dataframe after the value column has
been coerced in place. -/
def resolvedDf (df : DataFrame) (cfg : Config) : DataFrame :=
  df.coerceCol cfg.valueCol

/-- The downstream stages (classifier, KPI calculator, view and insight
generator), all reading the resolved dataframe. -/
def pipelineOutputs (rdf : DataFrame) (cfg : Config) : Outputs :=
  let sv := stageValuesOf rdf cfg.stageCol
  let kpi := kpiOf rdf cfg
  { stageValues := sv
    defaultCommit := defaultCommitStagesOf sv
    kpi := kpi
    risk := riskView rdf cfg
    insightLines := insightsOf rdf cfg kpi }

/-- One full pipeline run (the script body from line 71 on).  The under-2
columns guard errors out first (`st.error` + `st.stop()`, lines 71-73), in
which case no later stage runs; otherwise line 94 rewrites the value
column in the dataframe and every later stage reads that updated
dataframe.  The run returns the dataframe as it stands after the run
together with the outputs. -/
def runPipeline (df : DataFrame) (cfg : Config) :
    Except String (DataFrame × Outputs) :=
  if df.columns.length < 2 then
    .error "Not enough columns in the file. Please upload a richer dataset."
  else
    .ok (resolvedDf df cfg, pipelineOutputs (resolvedDf df cfg) cfg)

/-- The forecast as §4.3 of the spec words it: the sum, over exactly the
rows whose string-form stage cell is a member of `commit_stages`, of the
numeric content of the value cell, a cell without numeric content (failed
coercion, missing) contributing 0.  Stated over the dataset as the KPI
calculator sees it (value column already coerced). -/
def specForecast (rdf : DataFrame) (cfg : Config) : ℚ :=
  (rdf.rows.map (fun r =>
    if cfg.commitStages.contains (r.get cfg.stageCol).toStr then
      ((r.get cfg.valueCol).toNum?).getD 0
    else 0)).sum

/-! Concrete data used to instantiate the theorems below. -/

/-- A small dataset in the shape of the sample generator: stage, deal
value (with one parseable and one unparseable string cell), close week
(with one missing cell). -/
def wDf : DataFrame :=
  { columns := ["Stage", "Deal Value", "Close Week"]
    rows :=
      [[("Stage", .str "Won"), ("Deal Value", .num 10), ("Close Week", .num 5)],
       [("Stage", .str "Proposal"), ("Deal Value", .str "5.5"), ("Close Week", .num 12)],
       [("Stage", .str "Commit"), ("Deal Value", .str "oops"), ("Close Week", .num 13)],
       [("Stage", .str "Pipeline"), ("Deal Value", .num 7), ("Close Week", .missing)]] }

/-- A dataset with a single column (trips the scope guard). -/
def wDfOneCol : DataFrame :=
  { columns := ["Stage"], rows := [[("Stage", .str "Won")]] }

/-- A dataset whose close-week column holds strings (trips rule 3's
`TypeError`). -/
def wDfStrClose : DataFrame :=
  { columns := ["Stage", "Close Week"]
    rows := [[("Stage", .str "Won"), ("Close Week", .str "w1")]] }

/-- A dataset whose stage values match neither "commit" nor "won". -/
def wDfAB : DataFrame :=
  { columns := ["Stage", "Deal Value"]
    rows := [[("Stage", .str "Beta"), ("Deal Value", .num 1)],
             [("Stage", .str "Alpha"), ("Deal Value", .num 2)]] }

/-- A full configuration over `wDf` with a positive target. -/
def wCfg : Config :=
  { stageCol := "Stage", valueCol := "Deal Value", closeCol := some "Close Week"
    commitStages := ["Commit", "Won"], target := 120, largeDealThreshold := 8
    cutoff := 12 }

/-- The same configuration with a non-positive target. -/
def wCfgNeg : Config := { wCfg with target := -5 }

/-- The same configuration with the close-week role unbound. -/
def wCfgNoClose : Config := { wCfg with closeCol := none }

/-- The same configuration with an empty commit-stage set. -/
def wCfgNoCommit : Config := { wCfg with commitStages := [] }

/-! Helper lemmas shared by the claim theorems. -/

theorem rule1_ne_nil (g : ℚ) : rule1 g ≠ [] := by
  unfold rule1; split <;> simp

theorem runPipeline_ok_iff (df df2 : DataFrame) (cfg : Config) (out : Outputs) :
    runPipeline df cfg = .ok (df2, out) ↔
      2 ≤ df.columns.length ∧ df2 = resolvedDf df cfg ∧
        out = pipelineOutputs (resolvedDf df cfg) cfg := by
  by_cases h : df.columns.length < 2
  · simp only [runPipeline, if_pos h]
    constructor
    · intro hc; cases hc
    · rintro ⟨h2, -, -⟩; omega
  · simp only [runPipeline, if_neg h, Except.ok.injEq, Prod.mk.injEq]
    constructor
    · rintro ⟨h1, h2⟩
      exact ⟨by omega, h1.symm, h2.symm⟩
    · rintro ⟨-, h1, h2⟩
      exact ⟨h1.symm, h2.symm⟩

theorem coerce_idem (c : Cell) : c.coerce.coerce = c.coerce := by
  cases c with
  | num q => rfl
  | missing => rfl
  | str s => cases h : parseNum s <;> simp [Cell.coerce, h]

theorem coerceEntry_idem (v : String) (p : String × Cell) :
    coerceEntry v (coerceEntry v p) = coerceEntry v p := by
  by_cases h : p.1 == v <;> simp [coerceEntry, h, coerce_idem]

theorem row_get_coerce (v : String) (r : Row) :
    Row.get (r.map (coerceEntry v)) v = (Row.get r v).coerce := by
  induction r with
  | nil => rfl
  | cons a t ih =>
      by_cases h : a.1 == v
      · simp [Row.get, coerceEntry, h]
      · simp [Row.get, coerceEntry, h, ih]

theorem row_get_other (v c : String) (hne : c ≠ v) (r : Row) :
    Row.get (r.map (coerceEntry v)) c = Row.get r c := by
  induction r with
  | nil => rfl
  | cons a t ih =>
      by_cases h : a.1 == v
      · have hv : a.1 = v := by simpa using h
        have hc : (a.1 == c) = false := by
          simp [hv]; exact fun hvc => hne hvc.symm
        simp [Row.get, coerceEntry, h, hc, ih]
      · simp [Row.get, coerceEntry, h, ih]

theorem coerceCol_colCells_self (df : DataFrame) (v : String) :
    (df.coerceCol v).colCells v = (df.colCells v).map Cell.coerce := by
  simp [DataFrame.coerceCol, DataFrame.colCells, List.map_map, Function.comp_def,
    row_get_coerce]

theorem coerceCol_colCells_other (df : DataFrame) (v c : String) (h : c ≠ v) :
    (df.coerceCol v).colCells c = df.colCells c := by
  simp [DataFrame.coerceCol, DataFrame.colCells, List.map_map, Function.comp_def,
    row_get_other v c h]

theorem coerceCol_idem (df : DataFrame) (v : String) :
    (df.coerceCol v).coerceCol v = df.coerceCol v := by
  simp [DataFrame.coerceCol, List.map_map, Function.comp_def, coerceEntry_idem]

theorem sum_map_filter_eq (l : List Row) (p : Row → Bool) (f : Row → ℚ) :
    ((l.filter p).map f).sum = (l.map (fun r => if p r then f r else 0)).sum := by
  induction l with
  | nil => rfl
  | cons a t ih =>
      by_cases h : p a <;> simp [List.filter_cons, h, ih]

theorem foldl_max_mem (x : ℚ) (xs : List ℚ) : xs.foldl max x ∈ x :: xs := by
  induction xs generalizing x with
  | nil => simp
  | cons a t ih =>
      simp only [List.foldl_cons]
      rcases List.mem_cons.mp (ih (max x a)) with h1 | h2
      · rcases max_choice x a with hx | ha
        · rw [h1, hx]; exact List.mem_cons_self _ _
        · rw [h1, ha]; exact List.mem_cons_of_mem _ (List.mem_cons_self _ _)
      · exact List.mem_cons_of_mem _ (List.mem_cons_of_mem _ h2)

theorem le_foldl_max (x : ℚ) (xs : List ℚ) : ∀ y ∈ x :: xs, y ≤ xs.foldl max x := by
  induction xs generalizing x with
  | nil => intro y hy; rw [List.mem_singleton] at hy; simp [hy]
  | cons a t ih =>
      intro y hy
      simp only [List.foldl_cons]
      rcases List.mem_cons.mp hy with h1 | h2
      · rw [h1]
        exact le_trans (le_max_left x a)
          (ih (max x a) (max x a) (List.mem_cons_self _ _))
      · rcases List.mem_cons.mp h2 with h3 | h4
        · rw [h3]
          exact le_trans (le_max_right x a)
            (ih (max x a) (max x a) (List.mem_cons_self _ _))
        · exact ih (max x a) y (List.mem_cons_of_mem _ h4)

theorem foldl_min_mem (x : ℚ) (xs : List ℚ) : xs.foldl min x ∈ x :: xs := by
  induction xs generalizing x with
  | nil => simp
  | cons a t ih =>
      simp only [List.foldl_cons]
      rcases List.mem_cons.mp (ih (min x a)) with h1 | h2
      · rcases min_choice x a with hx | ha
        · rw [h1, hx]; exact List.mem_cons_self _ _
        · rw [h1, ha]; exact List.mem_cons_of_mem _ (List.mem_cons_self _ _)
      · exact List.mem_cons_of_mem _ (List.mem_cons_of_mem _ h2)

theorem foldl_min_le (x : ℚ) (xs : List ℚ) : ∀ y ∈ x :: xs, xs.foldl min x ≤ y := by
  induction xs generalizing x with
  | nil => intro y hy; rw [List.mem_singleton] at hy; simp [hy]
  | cons a t ih =>
      intro y hy
      simp only [List.foldl_cons]
      rcases List.mem_cons.mp hy with h1 | h2
      · rw [h1]
        exact le_trans
          (ih (min x a) (min x a) (List.mem_cons_self _ _)) (min_le_left x a)
      · rcases List.mem_cons.mp h2 with h3 | h4
        · rw [h3]
          exact le_trans
            (ih (min x a) (min x a) (List.mem_cons_self _ _)) (min_le_right x a)
        · exact ih (min x a) y (List.mem_cons_of_mem _ h4)

theorem colMax?_spec (df : DataFrame) (c : String) (m : ℚ)
    (h : colMax? df c = some m) :
    m ∈ colNums df c ∧ ∀ x ∈ colNums df c, x ≤ m := by
  unfold colMax? at h
  rcases hn : colNums df c with _ | ⟨a, t⟩
  · rw [hn] at h; cases h
  · rw [hn] at h
    injection h with h
    subst h
    exact ⟨hn ▸ foldl_max_mem a t, fun x hx => le_foldl_max a t x (hn ▸ hx)⟩

theorem colMin?_spec (df : DataFrame) (c : String) (m : ℚ)
    (h : colMin? df c = some m) :
    m ∈ colNums df c ∧ ∀ x ∈ colNums df c, m ≤ x := by
  unfold colMin? at h
  rcases hn : colNums df c with _ | ⟨a, t⟩
  · rw [hn] at h; cases h
  · rw [hn] at h
    injection h with h
    subst h
    exact ⟨hn ▸ foldl_min_mem a t, fun x hx => foldl_min_le a t x (hn ▸ hx)⟩

/-! The claim theorems. -/

/-- C2: the KPI snapshot satisfies `gap = target − forecast` exactly, and
`coverage = forecast / target × 100` when `target > 0` while
`coverage = 0` whenever `target ≤ 0` (division by zero avoided by
policy). -/
theorem claim2_gap_coverage (df : DataFrame) (cfg : Config) :
    (kpiOf df cfg).gap = (kpiOf df cfg).target - (kpiOf df cfg).forecast ∧
    (0 < cfg.target →
      (kpiOf df cfg).coverage =
        (kpiOf df cfg).forecast / (kpiOf df cfg).target * 100) ∧
    (cfg.target ≤ 0 → (kpiOf df cfg).coverage = 0) := by
  refine ⟨rfl, fun h => ?_, fun h => ?_⟩
  · simp [kpiOf, coverageOf, h]
  · simp [kpiOf, coverageOf, not_lt.mpr h]

/-- Witness for C2 at a positive and a non-positive target. -/
theorem claim2_gap_coverage_witness :
    ((0:ℚ) < wCfg.target ∧
      (kpiOf wDf wCfg).coverage =
        (kpiOf wDf wCfg).forecast / (kpiOf wDf wCfg).target * 100) ∧
    (wCfgNeg.target ≤ (0:ℚ) ∧ (kpiOf wDf wCfgNeg).coverage = 0) :=
  ⟨⟨by decide, (claim2_gap_coverage wDf wCfg).2.1 (by decide)⟩,
   ⟨by decide, (claim2_gap_coverage wDf wCfgNeg).2.2 (by decide)⟩⟩

/-- C6: a dataset with fewer than 2 columns makes the run fail with the
insufficient-columns message and nothing downstream runs (the run
produces no outputs); with at least 2 columns this error is never raised
and the run produces its outputs. -/
theorem claim6_scope_error (df : DataFrame) (cfg : Config) :
    (df.columns.length < 2 →
      runPipeline df cfg =
        .error "Not enough columns in the file. Please upload a richer dataset.") ∧
    (2 ≤ df.columns.length →
      runPipeline df cfg =
        .ok (resolvedDf df cfg, pipelineOutputs (resolvedDf df cfg) cfg)) := by
  constructor
  · intro h; simp [runPipeline, h]
  · intro h; simp [runPipeline, Nat.not_lt.mpr h]

/-- Witness for C6 on a 1-column and a 3-column dataset. -/
theorem claim6_scope_error_witness :
    (wDfOneCol.columns.length < 2 ∧
      runPipeline wDfOneCol wCfg =
        .error "Not enough columns in the file. Please upload a richer dataset.") ∧
    (2 ≤ wDf.columns.length ∧
      runPipeline wDf wCfg =
        .ok (resolvedDf wDf wCfg, pipelineOutputs (resolvedDf wDf wCfg) wCfg)) :=
  ⟨⟨by decide, (claim6_scope_error wDfOneCol wCfg).1 (by decide)⟩,
   ⟨by decide, (claim6_scope_error wDf wCfg).2 (by decide)⟩⟩

/-- C7: insight rule 2 emits the thin-funnel warning exactly when
`coverage < 80`, the exceeds-target warning exactly when
`coverage ≥ 100`, and nothing on the band `[80, 100)`. -/
theorem claim7_rule2_bands (c : ℚ) :
    (c < 80 →
      rule2 c = ["Forecast coverage is below 80 percent. Funnel may be thin."]) ∧
    (100 ≤ c →
      rule2 c = ["Forecast exceeds target. Check deal quality and risk."]) ∧
    (80 ≤ c → c < 100 → rule2 c = []) := by
  refine ⟨fun h => ?_, fun h => ?_, fun h1 h2 => ?_⟩
  · simp [rule2, h]
  · simp [rule2, show ¬c < 80 by linarith, h]
  · simp [rule2, show ¬c < 80 by linarith, show ¬100 ≤ c by linarith]

/-- Witness for C7 at coverages 79, 100 and the boundary 80 (where no
warning is emitted). -/
theorem claim7_rule2_bands_witness :
    ((79:ℚ) < 80 ∧
      rule2 79 = ["Forecast coverage is below 80 percent. Funnel may be thin."]) ∧
    ((100:ℚ) ≤ 100 ∧
      rule2 100 = ["Forecast exceeds target. Check deal quality and risk."]) ∧
    ((80:ℚ) ≤ 80 ∧ (80:ℚ) < 100 ∧ rule2 80 = []) :=
  ⟨⟨by norm_num, (claim7_rule2_bands 79).1 (by norm_num)⟩,
   ⟨le_refl _, (claim7_rule2_bands 100).2.1 (le_refl _)⟩,
   ⟨le_refl _, by norm_num, (claim7_rule2_bands 80).2.2 (le_refl _) (by norm_num)⟩⟩

/-- C10: every run that reaches the insight stage produces at least one
insight line (rule 1 always fires), so the empty-list fallback branch is
unreachable and the summary always prints the list itself. -/
theorem claim10_insights_nonempty (df df2 : DataFrame) (cfg : Config) (out : Outputs)
    (h : runPipeline df cfg = .ok (df2, out)) :
    out.insightLines ≠ [] ∧ summaryLines out.insightLines = out.insightLines := by
  obtain ⟨-, -, rfl⟩ := (runPipeline_ok_iff df df2 cfg out).mp h
  have hne : (pipelineOutputs (resolvedDf df cfg) cfg).insightLines ≠ [] := by
    simp [pipelineOutputs, insightsOf, rule1_ne_nil]
  exact ⟨hne, by simp [summaryLines, hne]⟩

/-- Witness for C10 on the sample dataset. -/
theorem claim10_insights_nonempty_witness :
    (pipelineOutputs (resolvedDf wDf wCfg) wCfg).insightLines ≠ [] ∧
    summaryLines (pipelineOutputs (resolvedDf wDf wCfg) wCfg).insightLines =
      (pipelineOutputs (resolvedDf wDf wCfg) wCfg).insightLines :=
  claim10_insights_nonempty wDf (resolvedDf wDf wCfg) wCfg
    (pipelineOutputs (resolvedDf wDf wCfg) wCfg)
    ((runPipeline_ok_iff wDf (resolvedDf wDf wCfg) wCfg
        (pipelineOutputs (resolvedDf wDf wCfg) wCfg)).mpr ⟨by decide, rfl, rfl⟩)

/-- C1: the forecast the KPI calculator computes equals the sum of the
coerced value column over exactly the rows whose string-form stage cell
is in `commit_stages`, a cell that failed numeric coercion contributing 0
(third conjunct ties the resolved value column to the coercion of the
original one); with an empty `commit_stages` the forecast is exactly 0. -/
theorem claim1_forecast_sum (df : DataFrame) (cfg : Config) :
    forecastOf (resolvedDf df cfg) cfg = specForecast (resolvedDf df cfg) cfg ∧
    (cfg.commitStages = [] → forecastOf (resolvedDf df cfg) cfg = 0) ∧
    (resolvedDf df cfg).colCells cfg.valueCol =
      (df.colCells cfg.valueCol).map Cell.coerce := by
  refine ⟨?_, fun h => by simp [forecastOf, h],
    coerceCol_colCells_self df cfg.valueCol⟩
  by_cases h : cfg.commitStages.isEmpty
  · have hnil : cfg.commitStages = [] := by simpa using h
    simp only [forecastOf, h, if_true, specForecast, hnil]
    symm
    apply List.sum_eq_zero
    intro x hx
    simp only [List.mem_map] at hx
    rcases hx with ⟨r, -, hr⟩
    subst hr
    simp
  · simp [forecastOf, specForecast, h, sum_map_filter_eq]

/-- Witness for C1 on the sample dataset, with the commit set
`["Commit", "Won"]` and with the empty commit set. -/
theorem claim1_forecast_sum_witness :
    forecastOf (resolvedDf wDf wCfg) wCfg = specForecast (resolvedDf wDf wCfg) wCfg ∧
    (wCfgNoCommit.commitStages = [] ∧
      forecastOf (resolvedDf wDf wCfgNoCommit) wCfgNoCommit = 0) :=
  ⟨(claim1_forecast_sum wDf wCfg).1,
   rfl, (claim1_forecast_sum wDf wCfgNoCommit).2.1 rfl⟩

/-- C5: a full pipeline run leaves every column of the dataset other than
the bound value column untouched (same column names, same row count, same
cells), and the value column becomes exactly the cell-wise coercion of
the original value column. -/
theorem claim5_frame (df df2 : DataFrame) (cfg : Config) (out : Outputs)
    (h : runPipeline df cfg = .ok (df2, out)) :
    df2.columns = df.columns ∧
    df2.rows.length = df.rows.length ∧
    (∀ c, c ≠ cfg.valueCol → df2.colCells c = df.colCells c) ∧
    df2.colCells cfg.valueCol = (df.colCells cfg.valueCol).map Cell.coerce := by
  obtain ⟨-, rfl, -⟩ := (runPipeline_ok_iff df df2 cfg out).mp h
  exact ⟨rfl, by simp [resolvedDf, DataFrame.coerceCol],
    fun c hc => coerceCol_colCells_other df cfg.valueCol c hc,
    coerceCol_colCells_self df cfg.valueCol⟩

/-- Witness for C5 on the sample dataset at the stage column. -/
theorem claim5_frame_witness :
    ("Stage" ≠ wCfg.valueCol ∧
      (resolvedDf wDf wCfg).colCells "Stage" = wDf.colCells "Stage") ∧
    (resolvedDf wDf wCfg).colCells wCfg.valueCol =
      (wDf.colCells wCfg.valueCol).map Cell.coerce :=
  ⟨⟨by decide,
    (claim5_frame wDf (resolvedDf wDf wCfg) wCfg
      (pipelineOutputs (resolvedDf wDf wCfg) wCfg)
      ((runPipeline_ok_iff wDf (resolvedDf wDf wCfg) wCfg
          (pipelineOutputs (resolvedDf wDf wCfg) wCfg)).mpr
        ⟨by decide, rfl, rfl⟩)).2.2.1 "Stage" (by decide)⟩,
   (claim5_frame wDf (resolvedDf wDf wCfg) wCfg
      (pipelineOutputs (resolvedDf wDf wCfg) wCfg)
      ((runPipeline_ok_iff wDf (resolvedDf wDf wCfg) wCfg
          (pipelineOutputs (resolvedDf wDf wCfg) wCfg)).mpr
        ⟨by decide, rfl, rfl⟩)).2.2.2⟩

/-- C9: two runs on equal dataset contents and equal configuration give
equal results, and the run is free of hidden mutable state: even re-run
on the dataframe the first run left behind (the one state line 94 wrote),
it returns the same KPI snapshot and insight list, byte for byte. -/
theorem claim9_deterministic (df dfB : DataFrame) (cfg cfgB : Config)
    (h1 : df = dfB) (h2 : cfg = cfgB) :
    runPipeline df cfg = runPipeline dfB cfgB ∧
    (∀ df2 out, runPipeline df cfg = .ok (df2, out) →
      runPipeline df2 cfg = .ok (df2, out)) := by
  subst h1; subst h2
  refine ⟨rfl, fun df2 out h => ?_⟩
  obtain ⟨hlen, rfl, rfl⟩ := (runPipeline_ok_iff df df2 cfg out).mp h
  have hid : resolvedDf (resolvedDf df cfg) cfg = resolvedDf df cfg :=
    coerceCol_idem df cfg.valueCol
  apply (runPipeline_ok_iff _ _ _ _).mpr
  refine ⟨?_, hid.symm, by rw [hid]⟩
  have hcols : (resolvedDf df cfg).columns = df.columns := rfl
  rw [hcols]; exact hlen

/-- Witness for C9 on the sample dataset. -/
theorem claim9_deterministic_witness :
    runPipeline wDf wCfg = runPipeline wDf wCfg ∧
    runPipeline (resolvedDf wDf wCfg) wCfg =
      .ok (resolvedDf wDf wCfg, pipelineOutputs (resolvedDf wDf wCfg) wCfg) :=
  ⟨(claim9_deterministic wDf wDf wCfg wCfg rfl rfl).1,
   (claim9_deterministic wDf wDf wCfg wCfg rfl rfl).2
     (resolvedDf wDf wCfg) (pipelineOutputs (resolvedDf wDf wCfg) wCfg)
     ((runPipeline_ok_iff wDf (resolvedDf wDf wCfg) wCfg
         (pipelineOutputs (resolvedDf wDf wCfg) wCfg)).mpr ⟨by decide, rfl, rfl⟩)⟩

/-- C3: the Stage Classifier returns the distinct string forms of the
stage cells, sorted lexicographically ascending without duplicates; the
default commit guess is exactly the distinct values matching the
commit/won predicate, and when none match but values exist it is the
singleton of the lexicographically smallest value. -/
theorem claim3_stage_classifier (df : DataFrame) (sc : String) :
    (stageValuesOf df sc).Sorted (fun a b => strLe a b = true) ∧
    (stageValuesOf df sc).Nodup ∧
    (∀ s, s ∈ stageValuesOf df sc ↔ s ∈ (df.colCells sc).map Cell.toStr) ∧
    (∀ s, s ∈ (stageValuesOf df sc).filter isCommitLike ↔
      s ∈ stageValuesOf df sc ∧ isCommitLike s = true) ∧
    ((stageValuesOf df sc).filter isCommitLike ≠ [] →
      defaultCommitStagesOf (stageValuesOf df sc) =
        (stageValuesOf df sc).filter isCommitLike) ∧
    ((stageValuesOf df sc).filter isCommitLike = [] →
      stageValuesOf df sc ≠ [] →
      ∃ m, defaultCommitStagesOf (stageValuesOf df sc) = [m] ∧
        m ∈ stageValuesOf df sc ∧
        ∀ s ∈ stageValuesOf df sc, strLe m s = true) := by
  have hperm :
      List.Perm (stageValuesOf df sc) ((df.colCells sc).map Cell.toStr).dedup :=
    List.perm_insertionSort _ _
  have hsorted : (stageValuesOf df sc).Sorted (fun a b => strLe a b = true) :=
    List.sorted_insertionSort _ _
  refine ⟨hsorted, hperm.nodup_iff.mpr (List.nodup_dedup _),
    fun s => (hperm.mem_iff).trans (List.mem_dedup),
    fun s => List.mem_filter, fun hne => ?_, fun hnil hsv => ?_⟩
  · have : ((stageValuesOf df sc).filter isCommitLike).isEmpty = false := by
      simpa [List.isEmpty_iff] using hne
    simp [defaultCommitStagesOf, this]
  · rcases hx : stageValuesOf df sc with _ | ⟨x, t⟩
    · exact absurd hx hsv
    · rw [hx] at hnil hsorted
      refine ⟨x, ?_, ?_, ?_⟩
      · simp [defaultCommitStagesOf, hnil]
      · exact List.mem_cons_self x t
      · intro s hs
        have hall := (List.sorted_cons.mp hsorted).1
        rcases List.mem_cons.mp hs with h1 | h2
        · subst h1; exact charsLe_refl _
        · exact hall s h2

/-- Witness for C3: on the sample stages the guess is the commit/won
matches, and on non-matching stages it falls back to the smallest. -/
theorem claim3_stage_classifier_witness :
    ((stageValuesOf wDf "Stage").filter isCommitLike ≠ [] ∧
      defaultCommitStagesOf (stageValuesOf wDf "Stage") =
        (stageValuesOf wDf "Stage").filter isCommitLike) ∧
    ((stageValuesOf wDfAB "Stage").filter isCommitLike = [] ∧
      stageValuesOf wDfAB "Stage" ≠ [] ∧
      ∃ m, defaultCommitStagesOf (stageValuesOf wDfAB "Stage") = [m] ∧
        m ∈ stageValuesOf wDfAB "Stage" ∧
        ∀ s ∈ stageValuesOf wDfAB "Stage", strLe m s = true) :=
  ⟨⟨by decide, (claim3_stage_classifier wDf "Stage").2.2.2.2.1 (by decide)⟩,
   ⟨by decide, by decide,
    (claim3_stage_classifier wDfAB "Stage").2.2.2.2.2 (by decide) (by decide)⟩⟩

/-- C4: with the close-week role unbound the Forecast Risk view is the
guidance notice and no table; with it bound to `cw`, the view is the
table of exactly the rows with `close_week ≥ cutoff` whose string-form
stage is not a commit stage, together with their count; the cutoff
slider's default is `int(max(close_week)) − 2` and its bounds are
`int(min(close_week))` and `int(max(close_week))`, where max/min are
genuinely the largest/smallest numeric close-week cells. -/
theorem claim4_risk_view (df : DataFrame) (cfg : Config) :
    (cfg.closeCol = none → riskView df cfg = .notice) ∧
    (∀ cw, cfg.closeCol = some cw →
      riskView df cfg =
        .table (df.rows.filter (isRisky cfg cw cfg.cutoff))
          (df.rows.filter (isRisky cfg cw cfg.cutoff)).length ∧
      (∀ r, r ∈ df.rows.filter (isRisky cfg cw cfg.cutoff) ↔
        r ∈ df.rows ∧ (Row.get r cw).geQ cfg.cutoff = true ∧
          cfg.commitStages.contains (Row.get r cfg.stageCol).toStr = false)) ∧
    (∀ cw m, colMax? df cw = some m →
      m ∈ colNums df cw ∧ (∀ x ∈ colNums df cw, x ≤ m) ∧
      defaultCutoff df cw = intTrunc m - 2 ∧
      (cutoffBounds df cw).2 = intTrunc m) ∧
    (∀ cw m, colMin? df cw = some m →
      m ∈ colNums df cw ∧ (∀ x ∈ colNums df cw, m ≤ x) ∧
      (cutoffBounds df cw).1 = intTrunc m) := by
  refine ⟨fun h => by simp [riskView, h], fun cw hcw => ⟨by simp [riskView, hcw], ?_⟩,
    fun cw m hm => ?_, fun cw m hm => ?_⟩
  · intro r
    simp [List.mem_filter, isRisky, Bool.and_eq_true, and_assoc]
  · obtain ⟨h1, h2⟩ := colMax?_spec df cw m hm
    exact ⟨h1, h2, by simp [defaultCutoff, hm], by simp [cutoffBounds, hm]⟩
  · obtain ⟨h1, h2⟩ := colMin?_spec df cw m hm
    exact ⟨h1, h2, by simp [cutoffBounds, hm]⟩

/-- Witness for C4: the unbound configuration degrades to the notice, and
on the sample dataset the bound view filters at cutoff 12 with max 13 and
min 5. -/
theorem claim4_risk_view_witness :
    (wCfgNoClose.closeCol = none ∧ riskView wDf wCfgNoClose = .notice) ∧
    (wCfg.closeCol = some "Close Week" ∧
      riskView wDf wCfg =
        .table (wDf.rows.filter (isRisky wCfg "Close Week" wCfg.cutoff))
          (wDf.rows.filter (isRisky wCfg "Close Week" wCfg.cutoff)).length) ∧
    (colMax? wDf "Close Week" = some 13 ∧
      defaultCutoff wDf "Close Week" = intTrunc 13 - 2) ∧
    (colMin? wDf "Close Week" = some 5 ∧
      (cutoffBounds wDf "Close Week").1 = intTrunc 5) :=
  ⟨⟨rfl, (claim4_risk_view wDf wCfgNoClose).1 rfl⟩,
   ⟨rfl, ((claim4_risk_view wDf wCfg).2.1 "Close Week" rfl).1⟩,
   ⟨by decide, ((claim4_risk_view wDf wCfg).2.2.1 "Close Week" 13 (by decide)).2.2.1⟩,
   ⟨by decide, ((claim4_risk_view wDf wCfg).2.2.2 "Close Week" 5 (by decide)).2.2⟩⟩

/-- C8: when the close-week column is evaluable (no string cells), rule 3
fires on `late_cut = max(close_week) − 1` and emits its concentration
message exactly when the count of rows with `close_week ≥ late_cut` is
positive; when evaluation fails (a string cell, pandas `TypeError`), the
failure is swallowed: rule 3 contributes nothing and the insight list is
still the output of rules 1 and 2. -/
theorem claim8_rule3_swallow (df : DataFrame) (cw : String) :
    (hasStrCell df cw = true →
      rule3 df (some cw) = [] ∧
      ∀ cfg kpi, cfg.closeCol = some cw →
        insightsOf df cfg kpi = rule1 kpi.gap ++ rule2 kpi.coverage) ∧
    (hasStrCell df cw = false → colMax? df cw = none →
      rule3 df (some cw) = []) ∧
    (hasStrCell df cw = false → ∀ m, colMax? df cw = some m →
      (m ∈ colNums df cw ∧ ∀ x ∈ colNums df cw, x ≤ m) ∧
      rule3 df (some cw) =
        (if 0 < (df.rows.filter (fun r => (Row.get r cw).geQ (m - 1))).length then
          [toString (df.rows.filter (fun r => (Row.get r cw).geQ (m - 1))).length ++
            " deals are concentrated in the last weeks of the quarter."]
        else [])) := by
  refine ⟨fun h => ⟨by simp [rule3, rule3Core, h], fun cfg kpi hc => ?_⟩,
    fun h hm => by simp [rule3, rule3Core, h, hm], fun h m hm => ?_⟩
  · simp [insightsOf, hc, rule3, rule3Core, h]
  · exact ⟨colMax?_spec df cw m hm, by simp [rule3, rule3Core, h, hm]⟩

/-- Witness for C8: a string-valued close-week column is swallowed while
rules 1 and 2 still report; on the sample dataset rule 3 counts the rows
with week ≥ 12. -/
theorem claim8_rule3_swallow_witness :
    (hasStrCell wDfStrClose "Close Week" = true ∧
      rule3 wDfStrClose (some "Close Week") = [] ∧
      insightsOf wDfStrClose wCfg (kpiOf wDfStrClose wCfg) =
        rule1 (kpiOf wDfStrClose wCfg).gap ++
          rule2 (kpiOf wDfStrClose wCfg).coverage) ∧
    (hasStrCell wDf "Close Week" = false ∧
      rule3 wDf (some "Close Week") =
        (if 0 < (wDf.rows.filter (fun r => (Row.get r "Close Week").geQ (13 - 1))).length then
          [toString (wDf.rows.filter (fun r => (Row.get r "Close Week").geQ (13 - 1))).length ++
            " deals are concentrated in the last weeks of the quarter."]
        else [])) :=
  ⟨⟨rfl, ((claim8_rule3_swallow wDfStrClose "Close Week").1 rfl).1,
    ((claim8_rule3_swallow wDfStrClose "Close Week").1 rfl).2 wCfg
      (kpiOf wDfStrClose wCfg) rfl⟩,
   ⟨rfl, (((claim8_rule3_swallow wDf "Close Week").2.2 rfl 13 (by decide))).2⟩⟩

end Dashboard
